import Mathlib

/-!
Verification of the tsip-flow-react async-flow consumption layer.

The definitions below are a shallow embedding of the source files:

* `AsyncFlowState`, the tagged snapshot union of an async flow
  (pending / success / error, with optional stale data);
* `useAsyncFlowResult` and the five state constructors, embedding the
  presentation-state computation of the tuple-based `useAsyncFlow` hook;
* `reader`, embedding the lazy accessor closure returned by `useAsyncFlow`;
* `collectPromises` and `combinedThrow`, embedding the pre-scan loop of the
  parallel loading coordinator `useAsyncFlows`;
* `renderFlows`, driving the embedded arity check and pre-scan through a
  render sequence, with the host framework commit semantics (a length ref is
  re-initialized on every render attempt until the component first commits,
  and persists afterwards) supplied by the driver;
* `getServerSnapshot`, embedding the hydration-aware server snapshot of the
  synchronous subscription `useFlow`;
* `Bridge` and its operations, an operational model of the effect bridge
  `useFlowEffect` with an explicit microtask queue and an event log;
* `setPrevState`, embedding writes to the module-level `previousStates`
  WeakMap keyed by flow reference.

Thrown control-flow values (promises, fatal hydration errors, user errors)
are represented by the explicit outcome type `ReaderOutcome`.
-/

namespace TsipFlowReact

/-- Snapshot of an async flow: the `AsyncFlowState<T>` tagged union.
`E` is the type of error values (TS `unknown`), `T` the data type.
An absent (`undefined`) data field is `none`. -/
inductive AsyncFlowState (E T : Type) where
  | pending (data : Option T)
  | success (data : T)
  | error (err : E) (data : Option T)
deriving DecidableEq, Repr

/-- Presentation-state object produced by `useAsyncFlow` per render:
the flag record common to Success / Loading / Updating / Error / Skipped. -/
structure FlowState (E T : Type) where
  isLoading : Bool
  isError : Bool
  error : Option E
  isFetching : Bool
  currentData : Option T
deriving DecidableEq, Repr

/-- Embeds `successState` from the source. -/
def successState {E T : Type} (data : T) : FlowState E T :=
  { isLoading := false
    isError := false
    error := none
    isFetching := false
    currentData := some data }

/-- Embeds `loadingState` from the source. -/
def loadingState {E T : Type} : FlowState E T :=
  { isLoading := true
    isError := false
    error := none
    isFetching := true
    currentData := none }

/-- Embeds `updatingState` from the source. -/
def updatingState {E T : Type} : FlowState E T :=
  { isLoading := false
    isError := false
    error := none
    isFetching := true
    currentData := none }

/-- Embeds `errorState` from the source: note that `currentData` is set to
the error snapshot data field, exactly as in the source. -/
def errorState {E T : Type} (err : E) (data : Option T) : FlowState E T :=
  { isLoading := false
    isError := true
    error := some err
    isFetching := false
    currentData := data }

/-- Embeds `skippedState` from the source. -/
def skippedState {E T : Type} : FlowState E T :=
  { isLoading := false
    isError := false
    error := none
    isFetching := false
    currentData := none }

/-- Tests the source condition `prevState && prevState.status === "success"`. -/
def prevIsSuccess {E T : Type} : Option (AsyncFlowState E T) → Bool
  | some (.success _) => true
  | _ => false

/-- Embeds the `result` memo of `useAsyncFlow`. The `state` argument is the
snapshot delivered by `useFlow` (`none` when the flow is `skipToken`, in
which case `useFlow` returned `null`), `prevState` is the entry read from
the `previousStates` side table, `isSsr` the SSR-phase flag. -/
def useAsyncFlowResult {E T : Type} (state : Option (AsyncFlowState E T))
    (prevState : Option (AsyncFlowState E T)) (isSsr : Bool) : FlowState E T :=
  match state with
  | none => skippedState
  | some s =>
    match s with
    | .pending d =>
        if prevIsSuccess prevState then updatingState
        else if d.isSome then updatingState
        else if isSsr then updatingState else loadingState
    | .error e d => errorState e d
    | .success d => successState d

/-- Outcome of invoking the accessor closure: it either returns a value or
throws one of three kinds of control-flow signals. `throwPromise` stands
for throwing the promise obtained from `flow.asPromise()`, `throwFatal`
for throwing a fresh fatal `Error` with the given message, and
`throwError` for throwing the error value carried by the snapshot. -/
inductive ReaderOutcome (E T : Type) where
  | value (v : T)
  | throwPromise
  | throwFatal (msg : String)
  | throwError (e : E)
deriving DecidableEq, Repr

/-- Message of the fatal error thrown on a bare pending snapshot observed by
the accessor during hydration, copied from the source. -/
def hydrationErrorMessage : String :=
  "Unexpected pending state for async flow during component hydration"

/-- Embeds the accessor closure (`reader` memo) of `useAsyncFlow`.
`renderState` is the frozen snapshot captured by `useFlow` at render time,
`liveState` is `flow.getSnapshot()` at invocation time, `prevState` the
`previousStates` entry at invocation time; `isSsr` comes from `useIsSsr`
and `isServer` reflects `typeof window === "undefined"`. -/
def reader {E T : Type} (renderState liveState : AsyncFlowState E T)
    (prevState : Option (AsyncFlowState E T)) (isSsr isServer : Bool) :
    ReaderOutcome E T :=
  let isHydration := isSsr && !isServer
  let readerState := if isHydration then renderState else liveState
  match readerState with
  | .pending d =>
      match prevState with
      | some (.success pd) => .value pd
      | _ =>
          match d with
          | some v => .value v
          | none =>
              if isHydration then .throwFatal hydrationErrorMessage
              else .throwPromise
  | .error e d =>
      match d with
      | none => .throwError e
      | some v => .value v
  | .success d => .value d

/-! ### Parallel loading coordinator (`useAsyncFlows`) -/

/-- One entry of the list passed to `useAsyncFlows`: either the `skipToken`
sentinel or an async flow, identified by a reference id and carrying its
current raw snapshot. The id stands for the flow reference; its
`asPromise()` result is identified by the same id. -/
inductive FlowEntry (E T : Type) where
  | skip
  | flow (id : Nat) (snap : AsyncFlowState E T)
deriving DecidableEq, Repr

/-- Embeds the pre-scan loop of `useAsyncFlows`: walks the entries in list
order, stopping (`break` in the source) at the first `skipToken` entry and,
when this is the first mount pass, also at the first pending entry whose
snapshot carries data; pushes `asPromise()` (represented by the flow id) of
every first-mount pending entry without data. `mounted` is the value of
`hasBeenMountedRef.current`. -/
def collectPromises {E T : Type} :
    List (FlowEntry E T) → Bool → List Nat
  | [], _ => []
  | .skip :: _, _ => []
  | .flow id (.pending d) :: rest, mounted =>
      if mounted then collectPromises rest mounted
      else if d.isSome then []
      else id :: collectPromises rest mounted
  | .flow _ (.success _) :: rest, mounted => collectPromises rest mounted
  | .flow _ (.error _ _) :: rest, mounted => collectPromises rest mounted

/-- Embeds the combined throw of `useAsyncFlows`: `some ps` means the hook
throws `Promise.all` of the collected promises `ps`; `none` means it falls
through to per-entry consumption. -/
def combinedThrow {E T : Type} (entries : List (FlowEntry E T))
    (mounted : Bool) : Option (List Nat) :=
  let ps := collectPromises entries mounted
  if ps = [] then none else some ps

/-- Modelled from the spec: the collection the specification describes for
the pre-scan, namely the `asPromise()` of every entry that is pending with
no usable data, across the whole list. Used only to compare against the
source-embedded `collectPromises`. -/
def specCollectPromises {E T : Type} (entries : List (FlowEntry E T)) :
    List Nat :=
  entries.filterMap fun e =>
    match e with
    | .flow id (.pending none) => some id
    | _ => none

/-- An entry lets the first-mount pre-scan keep scanning past it: `false`
exactly for the `skipToken` sentinel and for pending-with-data entries,
the two cases in which the source loop executes `break`. -/
def scannable {E T : Type} : FlowEntry E T → Bool
  | .skip => false
  | .flow _ (.pending (some _)) => false
  | _ => true

/-- Message of the arity error thrown by `useAsyncFlows`, copied from the
source. -/
def arityErrorMessage : String :=
  "useAsyncFlows: The number of flows changed between renders. This violates the Rules of Hooks and will cause rendering issues."

/-- Outcome of one render of a component calling `useAsyncFlows`. -/
inductive RenderResult where
  | arityError (msg : String)
  | suspended
  | settled
deriving DecidableEq, Repr

/-- Persistent hook state of a component calling `useAsyncFlows`:
`committedLength` is the value held by `lengthRef` once the component has
committed at least once, and `none` while every render attempt so far was
discarded (the host framework re-initializes refs on each pre-commit
attempt). `committedLength.isSome` is then also the value of
`hasBeenMountedRef.current`. -/
structure CoordState where
  committedLength : Option Nat
deriving DecidableEq, Repr

/-- Recognizes the accessor outcome that suspends the render. -/
def isThrowPromise {E T : Type} : ReaderOutcome E T → Bool
  | .throwPromise => true
  | _ => false

/-- An entry whose per-entry accessor invocation suspends the render on its
own: the embedded `reader` on the entry snapshot (with no retained previous
success, on the client) throws the flow promise. -/
def entrySuspends {E T : Type} : FlowEntry E T → Bool
  | .skip => false
  | .flow _ snap => isThrowPromise (reader snap snap none false false)

/-- One render of a component calling `useAsyncFlows` with the given
entries, driving the embedded arity check and pre-scan. Host framework
semantics supplied by the driver, following the spec concurrency model: a
render that throws keeps the previous persistent state (for a pre-commit
attempt the refs are simply discarded), and a completed render commits,
fixing the refs. -/
def renderFlows {E T : Type} (s : CoordState)
    (entries : List (FlowEntry E T)) : RenderResult × CoordState :=
  let mounted := s.committedLength.isSome
  let lenRef := s.committedLength.getD entries.length
  if lenRef ≠ entries.length then (.arityError arityErrorMessage, s)
  else
    let ps := collectPromises entries mounted
    if ps ≠ [] then (.suspended, s)
    else if entries.any entrySuspends then (.suspended, s)
    else (.settled, ⟨some entries.length⟩)

/-! ### Hydration-aware server snapshot (`useFlow.getServerSnapshot`) -/

/-- Observable result of one `getServerSnapshot` call: the returned value,
whether `flow.getSnapshot()` was invoked, and the `register` call made on
the hydration manager, if any. -/
structure ServerSnapshotResult (V : Type) where
  ret : V
  calledGetSnapshot : Bool
  registered : Option (Nat × V)
deriving DecidableEq, Repr

/-- Embeds `getServerSnapshot` from the hydration-aware `useFlow` (non-skip
path). `hydration` is the registry in scope, if any, given by its `hydrate`
lookup (`some v` meaning `hydrate` returned an object holding `v`);
`flowId` is the stable subscription id, `flowValue` the value
`flow.getSnapshot()` would produce. The source reads the live snapshot
unconditionally before consulting the registry, returns a recalled server
value when one exists, and otherwise registers the live value. -/
def getServerSnapshot {V : Type} (hydration : Option (Nat → Option V))
    (flowId : Nat) (flowValue : V) : ServerSnapshotResult V :=
  let value := flowValue
  match hydration with
  | some h =>
      match h flowId with
      | some serverValue =>
          { ret := serverValue, calledGetSnapshot := true, registered := none }
      | none =>
          { ret := value, calledGetSnapshot := true
            registered := some (flowId, value) }
  | none => { ret := value, calledGetSnapshot := true, registered := none }

/-! ### Effect bridge (`useFlowEffect`) -/

/-- Event recorded while driving the effect bridge: a handler invocation
(with its running index and the snapshot it received) or the invocation of
the teardown returned by the handler invocation of that index. -/
inductive BEvent (V : Type) where
  | handlerCall (idx : Nat) (v : V)
  | teardownCall (idx : Nat)
deriving DecidableEq, Repr

/-- Operational state of one mounted `useFlowEffect` subscription.
`flowValue` is the current value of the flow, `prevSnapshot` the closure
variable of the same name, `cancelled` the closure flag (which is set
together with the unsubscription, so it also models the subscription being
gone), `teardownId` identifies the pending teardown returned by the last
handler invocation, `queued` counts scheduled pending microtasks, and
`log` records handler and teardown invocations in order. -/
structure Bridge (V : Type) where
  flowValue : V
  prevSnapshot : V
  cancelled : Bool
  teardownId : Option Nat
  nextId : Nat
  queued : Nat
  log : List (BEvent V)
deriving DecidableEq, Repr

/-- Mounting the effect: the source reads `prevSnapshot = flow.getSnapshot()`
and invokes the handler immediately, keeping its teardown. Handler
invocations are numbered from 0 and each returns the teardown with the same
index. -/
def mountBridge {V : Type} (v0 : V) : Bridge V :=
  { flowValue := v0
    prevSnapshot := v0
    cancelled := false
    teardownId := some 0
    nextId := 1
    queued := 0
    log := [.handlerCall 0 v0] }

/-- A synchronous emission from the flow: the flow value changes at once,
and the subscription callback (if still subscribed) queues one microtask. -/
def emitValue {V : Type} (s : Bridge V) (v : V) : Bridge V :=
  if s.cancelled then { s with flowValue := v }
  else { s with flowValue := v, queued := s.queued + 1 }

/-- A list of synchronous emissions in one turn. -/
def emitAll {V : Type} (s : Bridge V) (vs : List V) : Bridge V :=
  vs.foldl emitValue s

/-- Runs one queued microtask callback, embedding the body passed to
`queueMicrotask` in the source: bail out when cancelled, re-read the
snapshot, and only when it differs from `prevSnapshot` run the previous
teardown and then the handler with the fresh snapshot. -/
def runOneMicrotask {V : Type} [DecidableEq V] (s : Bridge V) : Bridge V :=
  if s.queued = 0 then s
  else
    let s1 : Bridge V := { s with queued := s.queued - 1 }
    if s1.cancelled then s1
    else if s1.flowValue = s1.prevSnapshot then s1
    else
      let tlog : List (BEvent V) :=
        match s1.teardownId with
        | some i => [.teardownCall i]
        | none => []
      { s1 with
        prevSnapshot := s1.flowValue
        log := s1.log ++ tlog ++ [.handlerCall s1.nextId s1.flowValue]
        teardownId := some s1.nextId
        nextId := s1.nextId + 1 }

/-- Runs `k` microtask callbacks in order. -/
def runK {V : Type} [DecidableEq V] : Nat → Bridge V → Bridge V
  | 0, s => s
  | k + 1, s => runK k (runOneMicrotask s)

/-- Drains the microtask queue. -/
def runAllMicrotasks {V : Type} [DecidableEq V] (s : Bridge V) : Bridge V :=
  runK s.queued s

/-- Unmounting: the cleanup returned by the effect unsubscribes, sets
`cancelled`, and invokes the pending teardown, in that order. -/
def unmountBridge {V : Type} (s : Bridge V) : Bridge V :=
  let s1 : Bridge V := { s with cancelled := true }
  match s1.teardownId with
  | some i => { s1 with teardownId := none, log := s1.log ++ [.teardownCall i] }
  | none => s1

/-! ### Previous-state side table (`previousStates`) -/

/-- The empty `previousStates` table. Flows are identified by reference,
modelled as `Nat` ids; the table is module-level state shared by every
`useAsyncFlow` consumer. -/
def emptyPrevStates {E T : Type} : Nat → Option (AsyncFlowState E T) :=
  fun _ => none

/-- Embeds `previousStates.set(flow, state)`, the write performed by the
post-commit effect of any `useAsyncFlow` consumer. The table is keyed by
the flow reference only; there is no consumer-instance key. -/
def setPrevState {E T : Type} (m : Nat → Option (AsyncFlowState E T))
    (flow : Nat) (s : AsyncFlowState E T) :
    Nat → Option (AsyncFlowState E T) :=
  fun f => if f = flow then some s else m f

/-! ## Theorems -/

/-- C1: for every async source whose previous committed snapshot was a
settled success and whose current snapshot is pending, the classifier
yields the Updating state (isLoading gets false, isFetching gets true,
currentData gets undefined), and invoking the accessor returns the prior
success data, even when the pending snapshot carries its own optimistic
data field. -/
theorem priorSuccess_pending_updates {E T : Type} (pd : T) (d : Option T)
    (isSsr isServer : Bool) :
    useAsyncFlowResult (E := E) (some (.pending d)) (some (.success pd)) isSsr
        = updatingState
    ∧ (updatingState (E := E) (T := T)).isLoading = false
    ∧ (updatingState (E := E) (T := T)).isFetching = true
    ∧ (updatingState (E := E) (T := T)).currentData = none
    ∧ reader (E := E) (.pending d) (.pending d) (some (.success pd))
        isSsr isServer = .value pd := by
  refine ⟨rfl, rfl, rfl, rfl, ?_⟩
  cases isSsr <;> cases isServer <;> rfl

/-- C2: for a source whose very first observed snapshot is pending with no
data, while not hydrating, the classifier yields Loading and the accessor
throws the promise obtained from asPromise; after the source settles to
success, the classifier yields Success and the accessor returns the new
data. -/
theorem initialPending_loads_then_succeeds {E T : Type} (d : T) :
    useAsyncFlowResult (E := E) (T := T) (some (.pending none)) none false
        = loadingState
    ∧ (loadingState (E := E) (T := T)).isLoading = true
    ∧ (loadingState (E := E) (T := T)).isFetching = true
    ∧ (loadingState (E := E) (T := T)).currentData = none
    ∧ reader (E := E) (T := T) (.pending none) (.pending none) none
        false false = .throwPromise
    ∧ ∀ (prev : Option (AsyncFlowState E T)) (isSsr isServer : Bool),
        useAsyncFlowResult (some (.success d)) prev isSsr = successState d
        ∧ (successState (E := E) d).currentData = some d
        ∧ reader (.success d) (.success d) prev isSsr isServer = .value d := by
  refine ⟨rfl, rfl, rfl, rfl, rfl, ?_⟩
  intro prev isSsr isServer
  refine ⟨rfl, rfl, ?_⟩
  cases isSsr <;> cases isServer <;> rfl

/-- C3 counterexample: on an error snapshot that carries stale data, the
produced Error presentation state has currentData populated with that data,
refuting the claim that currentData is undefined for every Error state and
populated only in Success. -/
theorem errorState_keeps_data_counterexample :
    (useAsyncFlowResult (E := Nat) (T := Nat)
        (some (.error 0 (some 42))) none false).isError = true
    ∧ (useAsyncFlowResult (E := Nat) (T := Nat)
        (some (.error 0 (some 42))) none false).currentData = some 42
    ∧ (useAsyncFlowResult (E := Nat) (T := Nat)
        (some (.error 0 (some 42))) none false).currentData ≠ none := by
  refine ⟨rfl, rfl, ?_⟩
  decide

/-- C3 amended: every error snapshot is classified as the Error state whose
currentData equals the data field carried by the error snapshot itself
(possibly undefined); across all produced presentation states, currentData
is populated only in the Success and Error variants. -/
theorem errorState_currentData_policy {E T : Type} :
    (∀ (e : E) (d : Option T) (prev : Option (AsyncFlowState E T))
        (isSsr : Bool),
        useAsyncFlowResult (some (.error e d)) prev isSsr = errorState e d
        ∧ (errorState (T := T) e d).currentData = d
        ∧ (errorState (T := T) e d).isError = true)
    ∧ ∀ (st prev : Option (AsyncFlowState E T)) (isSsr : Bool),
        (useAsyncFlowResult st prev isSsr).currentData = none
        ∨ (∃ v, st = some (.success v)
            ∧ useAsyncFlowResult st prev isSsr = successState v)
        ∨ ∃ e dd, st = some (.error e dd)
            ∧ useAsyncFlowResult st prev isSsr = errorState e dd := by
  refine ⟨fun e d prev isSsr => ⟨rfl, rfl, rfl⟩, ?_⟩
  intro st prev isSsr
  match st with
  | none => exact Or.inl rfl
  | some (.pending d) =>
      left
      simp only [useAsyncFlowResult]
      split_ifs <;> rfl
  | some (.success v) => exact Or.inr (Or.inl ⟨v, rfl, rfl⟩)
  | some (.error e dd) => exact Or.inr (Or.inr ⟨e, dd, rfl, rfl⟩)

/-- C4 counterexample: with retained prior-success data present and an error
snapshot carrying no own data, the accessor throws the error rather than
returning the retained data, refuting the claim that retained prior-success
data prevents the throw. -/
theorem reader_error_ignores_prior_counterexample :
    reader (E := Nat) (T := Nat) (.error 5 none) (.error 5 none)
        (some (.success 42)) false false = .throwError 5
    ∧ reader (E := Nat) (T := Nat) (.error 5 none) (.error 5 none)
        (some (.success 42)) false false ≠ .value 42 := by
  refine ⟨rfl, ?_⟩
  decide

/-- C4 amended: on an error snapshot the accessor throws the error object
itself exactly when the error snapshot carries no own data, regardless of
retained prior-success data; when the error snapshot carries its own data,
the accessor returns that data. -/
theorem reader_error_branch {E T : Type} (e : E) (d : Option T)
    (prev : Option (AsyncFlowState E T)) (isSsr isServer : Bool) :
    (reader (.error e d) (.error e d) prev isSsr isServer
        = .throwError e ↔ d = none)
    ∧ ∀ v, d = some v →
        reader (.error e d) (.error e d) prev isSsr isServer = .value v := by
  have hred : reader (.error e d) (.error e d) prev isSsr isServer
      = (match d with
        | none => ReaderOutcome.throwError e
        | some v => ReaderOutcome.value v) := by
    cases isSsr <;> cases isServer <;> rfl
  constructor
  · rw [hred]
    cases d with
    | none => simp
    | some v =>
        simp only [iff_iff_implies_and_implies]
        constructor
        · intro h
          exact absurd h (by intro h2; exact ReaderOutcome.noConfusion h2)
        · intro h
          exact absurd h (by intro h2; exact Option.noConfusion h2)
  · intro v hv
    subst hv
    rw [hred]

/-- C4 amended witness: a concrete error snapshot with own data makes the
accessor return the data instead of throwing. -/
theorem reader_error_branch_witness :
    reader (E := Nat) (T := Nat) (.error 1 (some 7)) (.error 1 (some 7))
        none false false = .value 7 :=
  (reader_error_branch 1 (some 7) none false false).2 7 rfl

/-- C5: invoking the accessor while hydrating on a pending snapshot with no
data and no retained prior success throws the fatal hydration error with
its fixed message, a value distinct from the thrown suspension promise. -/
theorem reader_hydration_pending_fatal {E T : Type}
    (prev : Option (AsyncFlowState E T)) (live : AsyncFlowState E T)
    (hprev : prevIsSuccess prev = false) :
    reader (.pending none) live prev true false
        = .throwFatal hydrationErrorMessage
    ∧ (ReaderOutcome.throwFatal (E := E) (T := T) hydrationErrorMessage
        ≠ .throwPromise) := by
  constructor
  · cases prev with
    | none => rfl
    | some s =>
        cases s with
        | pending d2 => rfl
        | success v => simp [prevIsSuccess] at hprev
        | error e2 d2 => rfl
  · intro h
    exact ReaderOutcome.noConfusion h

/-- C5 witness: the fatal hydration throw at a concrete input. -/
theorem reader_hydration_pending_fatal_witness :
    reader (E := Nat) (T := Nat) (.pending none) (.pending none) none
        true false = .throwFatal hydrationErrorMessage
    ∧ (ReaderOutcome.throwFatal (E := Nat) (T := Nat) hydrationErrorMessage
        ≠ .throwPromise) :=
  reader_hydration_pending_fatal none (.pending none) rfl

/-- C6 counterexample: on a first mount pass with a pending-with-data entry
followed by a pending-without-data entry, the pre-scan collects nothing and
throws no combined promise, while the spec-described collection over every
entry would collect the second entry, refuting the claim that every
pending-no-data entry is collected. -/
theorem prescan_stops_early_counterexample :
    collectPromises (E := Nat) (T := Nat)
        [.flow 0 (.pending (some 1)), .flow 1 (.pending none)] false = []
    ∧ specCollectPromises (E := Nat) (T := Nat)
        [.flow 0 (.pending (some 1)), .flow 1 (.pending none)] = [1]
    ∧ combinedThrow (E := Nat) (T := Nat)
        [.flow 0 (.pending (some 1)), .flow 1 (.pending none)] false = none
    ∧ collectPromises (E := Nat) (T := Nat)
        [.flow 0 (.pending (some 1)), .flow 1 (.pending none)] false
      ≠ specCollectPromises (E := Nat) (T := Nat)
        [.flow 0 (.pending (some 1)), .flow 1 (.pending none)] := by
  refine ⟨rfl, rfl, rfl, ?_⟩
  decide

/-- C6 amended: on the first mount pass the pre-scan collects asPromise of
exactly the pending-without-data entries of the longest prefix that
contains neither a skipToken entry nor a pending-with-data entry (the two
cases where the source loop breaks), and the hook throws the combined
wait-all promise exactly when that collection is non-empty. -/
theorem prescan_collects_scannable_prefix {E T : Type}
    (entries : List (FlowEntry E T)) :
    collectPromises entries false
        = specCollectPromises (entries.takeWhile scannable)
    ∧ combinedThrow entries false
        = (if collectPromises entries false = [] then none
           else some (collectPromises entries false)) := by
  refine ⟨?_, rfl⟩
  induction entries with
  | nil => rfl
  | cons e rest ih =>
      cases e with
      | skip => rfl
      | flow id snap =>
          cases snap with
          | pending d =>
              cases d with
              | none =>
                  simp only [collectPromises, List.takeWhile, scannable,
                    specCollectPromises, List.filterMap] at ih ⊢
                  simp [ih]
              | some v => rfl
          | success dd =>
              simp only [collectPromises, List.takeWhile, scannable,
                specCollectPromises, List.filterMap] at ih ⊢
              simp [ih]
          | error e2 dd =>
              simp only [collectPromises, List.takeWhile, scannable,
                specCollectPromises, List.filterMap] at ih ⊢
              simp [ih]

/-- C7 counterexample: a component that committed with one entry, then went
through a suspended render with that original count, still throws the arity
error on the very next render with a different count, refuting the claimed
exemption of the first settle-render after a suspended render. -/
theorem arity_postMount_suspension_counterexample :
    (renderFlows (E := Nat) (T := Nat) ⟨none⟩ [.skip]).1 = .settled
    ∧ (renderFlows (E := Nat) (T := Nat) ⟨none⟩ [.skip]).2 = ⟨some 1⟩
    ∧ (renderFlows (E := Nat) (T := Nat) ⟨some 1⟩
        [.flow 0 (.pending none)]).1 = .suspended
    ∧ (renderFlows (E := Nat) (T := Nat) ⟨some 1⟩
        [.flow 0 (.pending none)]).2 = ⟨some 1⟩
    ∧ (renderFlows (E := Nat) (T := Nat) ⟨some 1⟩
        [.flow 0 (.pending none), .flow 1 (.success 42)]).1
      = .arityError arityErrorMessage :=
  ⟨rfl, rfl, rfl, rfl, rfl⟩

/-- C7 amended: after the component has committed with some count, every
render whose entry count differs throws the descriptive arity error, even
immediately after a suspended render; before the first commit the length
ref is re-initialized on each attempt, so no render throws the arity error,
which yields the observed exemption during the initial concurrent loading
race. -/
theorem arity_check_behavior {E T : Type} :
    (∀ (s : CoordState) (N : Nat) (entries : List (FlowEntry E T)),
        s.committedLength = some N → entries.length ≠ N →
        (renderFlows s entries).1 = .arityError arityErrorMessage)
    ∧ ∀ (s : CoordState) (entries : List (FlowEntry E T)) (msg : String),
        s.committedLength = none →
        (renderFlows s entries).1 ≠ .arityError msg := by
  constructor
  · rintro ⟨cl⟩ N entries h hne
    cases h
    show (if (N ≠ entries.length) then _ else _ :
        RenderResult × CoordState).1 = _
    rw [if_pos (fun hEq => hne hEq.symm)]
  · rintro ⟨cl⟩ entries msg h
    cases h
    show (if (entries.length ≠ entries.length) then _ else _ :
        RenderResult × CoordState).1 ≠ _
    rw [if_neg (fun hEq => hEq rfl)]
    split
    · intro hcontra
      exact RenderResult.noConfusion hcontra
    · split
      · intro hcontra
        exact RenderResult.noConfusion hcontra
      · intro hcontra
        exact RenderResult.noConfusion hcontra

/-- C7 amended witness: a committed count of one with two entries throws,
while the same two entries on a never-committed component do not. -/
theorem arity_check_behavior_witness :
    (renderFlows (E := Nat) (T := Nat) ⟨some 1⟩ [.skip, .skip]).1
        = .arityError arityErrorMessage
    ∧ (renderFlows (E := Nat) (T := Nat) ⟨none⟩ [.skip, .skip]).1
        ≠ .arityError arityErrorMessage :=
  ⟨arity_check_behavior.1 ⟨some 1⟩ 1 [.skip, .skip] rfl (by decide),
   arity_check_behavior.2 ⟨none⟩ [.skip, .skip] arityErrorMessage rfl⟩

/-- C8 counterexample: with a registry in scope holding server value 7 for
the subscription id while the live source holds 9, getServerSnapshot
returns the recalled 7 but performs no register call, refuting the claimed
registration of the client value in that case. -/
theorem getServerSnapshot_no_register_counterexample :
    (getServerSnapshot (V := Nat)
        (some fun i => if i = 0 then some 7 else none) 0 9).ret = 7
    ∧ (getServerSnapshot (V := Nat)
        (some fun i => if i = 0 then some 7 else none) 0 9).calledGetSnapshot
      = true
    ∧ (getServerSnapshot (V := Nat)
        (some fun i => if i = 0 then some 7 else none) 0 9).registered = none
    ∧ (getServerSnapshot (V := Nat)
        (some fun i => if i = 0 then some 7 else none) 0 9).registered
      ≠ some (0, 9) := by
  refine ⟨rfl, rfl, rfl, ?_⟩
  decide

/-- C8 amended: with a registry in scope, getServerSnapshot always reads the
live snapshot eagerly; when the registry holds a server value for the id it
returns that recalled value and registers nothing, and only when no server
value is recalled does it register the eagerly computed live value and
return it. -/
theorem getServerSnapshot_recall_policy {V : Type}
    (h : Nat → Option V) (flowId : Nat) (v : V) :
    (∀ sv, h flowId = some sv →
        getServerSnapshot (some h) flowId v
          = { ret := sv, calledGetSnapshot := true, registered := none })
    ∧ (h flowId = none →
        getServerSnapshot (some h) flowId v
          = { ret := v, calledGetSnapshot := true
              registered := some (flowId, v) }) := by
  have hred : getServerSnapshot (some h) flowId v
      = (match h flowId with
        | some serverValue =>
            ({ ret := serverValue, calledGetSnapshot := true
               registered := none } : ServerSnapshotResult V)
        | none =>
            { ret := v, calledGetSnapshot := true
              registered := some (flowId, v) }) := rfl
  constructor
  · intro sv hsv
    rw [hred, hsv]
  · intro h0
    rw [hred, h0]

/-- C8 amended witness: both branches at concrete registries. -/
theorem getServerSnapshot_recall_policy_witness :
    getServerSnapshot (V := Nat) (some fun _ => some 7) 0 9
        = { ret := 7, calledGetSnapshot := true, registered := none }
    ∧ getServerSnapshot (V := Nat) (some fun _ => none) 0 9
        = { ret := 9, calledGetSnapshot := true, registered := some (0, 9) } :=
  ⟨(getServerSnapshot_recall_policy (fun _ => some 7) 0 9).1 7 rfl,
   (getServerSnapshot_recall_policy (fun _ => none) 0 9).2 rfl⟩

/-- C10 counterexample: two consumers of the same source write the shared
module-level previousStates table in turn; the second write overwrites the
entry the first consumer committed, refuting exclusive per-consumer
ownership of the entry for a shared source. -/
theorem prevStates_overwrite_counterexample :
    setPrevState (E := Nat) (T := Nat)
        (setPrevState emptyPrevStates 0 (.success 1)) 0 (.success 2) 0
      = some (.success 2)
    ∧ setPrevState (E := Nat) (T := Nat)
        (setPrevState emptyPrevStates 0 (.success 1)) 0 (.success 2) 0
      ≠ some (.success 1) := by
  refine ⟨rfl, ?_⟩
  decide

/-- C10 amended: the previousStates table is keyed solely by source
reference and shared by all consumer instances: a write for a source
replaces the single entry every consumer of that source reads, while
entries for distinct sources are unaffected. -/
theorem prevStates_keying {E T : Type}
    (m : Nat → Option (AsyncFlowState E T)) (f g : Nat)
    (s : AsyncFlowState E T) :
    setPrevState m f s f = some s
    ∧ (f ≠ g → setPrevState m f s g = m g) := by
  constructor
  · simp [setPrevState]
  · intro hne
    simp only [setPrevState]
    rw [if_neg (fun hEq => hne hEq.symm)]

/-- Helper: a microtask callback that finds the effect cancelled only
consumes its queue slot. -/
theorem runOneMicrotask_cancelled {V : Type} [DecidableEq V] (s : Bridge V)
    (h : s.cancelled = true) :
    runOneMicrotask s = { s with queued := s.queued - 1 } := by
  rcases s with ⟨fv, ps, c, t, n, q, l⟩
  simp only at h
  cases h
  cases q with
  | zero => rfl
  | succ k => rfl

/-- Helper: a microtask callback that finds the snapshot unchanged only
consumes its queue slot. -/
theorem runOneMicrotask_steady {V : Type} [DecidableEq V] (s : Bridge V)
    (h : s.flowValue = s.prevSnapshot) :
    runOneMicrotask s = { s with queued := s.queued - 1 } := by
  rcases s with ⟨fv, ps, c, t, n, q, l⟩
  simp only at h
  cases h
  cases q with
  | zero => rfl
  | succ k =>
      cases c with
      | false => simp [runOneMicrotask]
      | true => rfl

/-- Helper: running any number of microtask callbacks on a cancelled or
snapshot-steady state only drains the queue; in particular it invokes no
handler and no teardown. -/
theorem runK_inert {V : Type} [DecidableEq V] (k : Nat) (s : Bridge V)
    (h : s.cancelled = true ∨ s.flowValue = s.prevSnapshot) :
    runK k s = { s with queued := s.queued - k } := by
  induction k generalizing s with
  | zero =>
      rcases s with ⟨fv, ps, c, t, n, q, l⟩
      rfl
  | succ k ih =>
      have h1 : runOneMicrotask s = { s with queued := s.queued - 1 } := by
        rcases h with hc | he
        · exact runOneMicrotask_cancelled s hc
        · exact runOneMicrotask_steady s he
      show runK k (runOneMicrotask s) = _
      rw [h1, ih { s with queued := s.queued - 1 } h]
      rcases s with ⟨fv, ps, c, t, n, q, l⟩
      simp only [Bridge.mk.injEq, true_and, and_true]
      omega

/-- Helper: a run of synchronous emissions on a live subscription sets the
flow value to the last emitted value and queues one microtask per
emission. -/
theorem emitAll_mk {V : Type} (vs : List V) :
    ∀ (fv ps : V) (t : Option Nat) (n q : Nat) (l : List (BEvent V)),
    emitAll ⟨fv, ps, false, t, n, q, l⟩ vs
      = ⟨vs.getLastD fv, ps, false, t, n, q + vs.length, l⟩ := by
  induction vs with
  | nil => intro fv ps t n q l; rfl
  | cons v rest ih =>
      intro fv ps t n q l
      show emitAll ⟨v, ps, false, t, n, q + 1, l⟩ rest = _
      rw [ih, List.getLastD_cons]
      simp only [Bridge.mk.injEq, true_and, and_true, List.length_cons]
      omega

/-- C9: for a mounted effect bridge, any non-empty run of synchronous
emissions ending in a value different from the last seen snapshot produces,
once the microtask queue drains, exactly one further handler invocation
carrying the final value, with the teardown of the previous invocation run
first; unmounting then runs the pending teardown; and an emission whose
scheduled microtask is cancelled by unmount invokes no handler. -/
theorem useFlowEffect_coalescing {V : Type} [DecidableEq V]
    (v0 w : V) (ws : List V) (hw : w ≠ v0) :
    (runAllMicrotasks (emitAll (mountBridge v0) (ws ++ [w]))).log
        = [.handlerCall 0 v0, .teardownCall 0, .handlerCall 1 w]
    ∧ (unmountBridge (runAllMicrotasks
        (emitAll (mountBridge v0) (ws ++ [w])))).log
      = [.handlerCall 0 v0, .teardownCall 0, .handlerCall 1 w,
         .teardownCall 1]
    ∧ ∀ v : V,
        (runAllMicrotasks (unmountBridge (emitValue
            (runAllMicrotasks (emitAll (mountBridge v0) (ws ++ [w]))) v))).log
          = [.handlerCall 0 v0, .teardownCall 0, .handlerCall 1 w,
             .teardownCall 1] := by
  have he : emitAll (mountBridge v0) (ws ++ [w])
      = ⟨w, v0, false, some 0, 1, ws.length + 1, [.handlerCall 0 v0]⟩ := by
    show emitAll ⟨v0, v0, false, some 0, 1, 0, [.handlerCall 0 v0]⟩ (ws ++ [w])
        = _
    rw [emitAll_mk]
    simp only [Bridge.mk.injEq, true_and, and_true, List.length_append,
      List.length_cons, List.length_nil]
    constructor
    · simp
    · omega
  have hone : runOneMicrotask
      (⟨w, v0, false, some 0, 1, ws.length + 1,
        [.handlerCall 0 v0]⟩ : Bridge V)
      = ⟨w, w, false, some 1, 2, ws.length,
         [.handlerCall 0 v0, .teardownCall 0, .handlerCall 1 w]⟩ := by
    simp [runOneMicrotask, hw]
  have hfinal : runAllMicrotasks (emitAll (mountBridge v0) (ws ++ [w]))
      = ⟨w, w, false, some 1, 2, 0,
         [.handlerCall 0 v0, .teardownCall 0, .handlerCall 1 w]⟩ := by
    rw [runAllMicrotasks, he]
    show runK (ws.length + 1)
        (⟨w, v0, false, some 0, 1, ws.length + 1,
          [.handlerCall 0 v0]⟩ : Bridge V) = _
    show runK ws.length (runOneMicrotask
        (⟨w, v0, false, some 0, 1, ws.length + 1,
          [.handlerCall 0 v0]⟩ : Bridge V)) = _
    rw [hone, runK_inert _ _ (Or.inr rfl)]
    simp
  refine ⟨?_, ?_, ?_⟩
  · rw [hfinal]
  · rw [hfinal]
    rfl
  · intro v
    rw [hfinal]
    show (runAllMicrotasks (unmountBridge
        (⟨v, w, false, some 1, 2, 1,
          [.handlerCall 0 v0, .teardownCall 0, .handlerCall 1 w]⟩ :
            Bridge V))).log = _
    show (runAllMicrotasks
        (⟨v, w, true, none, 2, 1,
          [.handlerCall 0 v0, .teardownCall 0, .handlerCall 1 w,
           .teardownCall 1]⟩ : Bridge V)).log = _
    rw [runAllMicrotasks, runK_inert _ _ (Or.inl rfl)]

/-- C9 witness: three synchronous emissions of 1, 2, 3 over initial value 0
collapse to one handler invocation with 3, after the initial mount
invocation with 0 and the teardown of that invocation. -/
theorem useFlowEffect_coalescing_witness :
    (runAllMicrotasks (emitAll (mountBridge (0 : Nat)) ([1, 2] ++ [3]))).log
      = [.handlerCall 0 0, .teardownCall 0, .handlerCall 1 3] :=
  (useFlowEffect_coalescing 0 3 [1, 2] (by decide)).1

/-- C10 amended witness: concrete writes at ids 0 and 1. -/
theorem prevStates_keying_witness :
    setPrevState (E := Nat) (T := Nat) emptyPrevStates 0 (.success 5) 0
        = some (.success 5)
    ∧ setPrevState (E := Nat) (T := Nat) emptyPrevStates 0 (.success 5) 1
        = none :=
  ⟨(prevStates_keying emptyPrevStates 0 1 (.success 5)).1,
   (prevStates_keying emptyPrevStates 0 1 (.success 5)).2 (by decide)⟩

end TsipFlowReact
